import Mathlib

/-!
Shallow embedding of the road-tile SVG generators:

* `Gen8`   — src/generate-using-8bit.py  (mask-named road tiles)
* `Marker` — src/generate-using-8bit-start-goal.py  (start/goal marker tiles)
* `GenPy`  — src/generate.py  (TileKey-named road tiles)

File writing is modelled by returning the record that determines each
written file (its name, key, mask, path data and transform attribute);
a Python exception that aborts the run is modelled by `Except.error`.
-/

namespace RoadTile

/-- Hand-authored SVG path data of one base tile: outer and inner lane
boundary (`paths["outer"]` / `paths["inner"]` in the scripts). -/
structure Paths where
  outer : String
  inner : String
deriving DecidableEq

/-- One uppercase hexadecimal digit, for `n < 16`. -/
def hex_digit (n : Nat) : String :=
  match n with
  | 0 => "0" | 1 => "1" | 2 => "2" | 3 => "3" | 4 => "4"
  | 5 => "5" | 6 => "6" | 7 => "7" | 8 => "8" | 9 => "9"
  | 10 => "A" | 11 => "B" | 12 => "C" | 13 => "D" | 14 => "E" | _ => "F"

/-- Two-digit uppercase hexadecimal: Python's format `mask:02X` for the
8-bit masks (all masks produced here are below 256). -/
def hex2 (n : Nat) : String := hex_digit (n / 16) ++ hex_digit (n % 16)

namespace Gen8

/-- `PAIR_TO_BIT` of generate-using-8bit.py: port pair name to bit index. -/
def PAIR_TO_BIT : String → Option Nat
  | "U1U2" => some 0
  | "U2U3" => some 1
  | "R1R2" => some 2
  | "R2R3" => some 3
  | "D2D3" => some 4
  | "D1D2" => some 5
  | "L2L3" => some 6
  | "L1L2" => some 7
  | _ => none

/-- The loop body of `key_to_mask`: OR the bits of each pair token,
raising (here: `Except.error`) on an unknown pair. -/
def maskOfPairs : List String → Nat → Except String Nat
  | [], mask => .ok mask
  | pair :: rest, mask =>
    match PAIR_TO_BIT pair with
    | some b => maskOfPairs rest (mask ||| (1 <<< b))
    | none => .error ("Unknown port pair " ++ pair)

/-- Python's `key.split("-")`, written as structural recursion over the
character list: split at every `-`, the empty string splitting to `[""]`. -/
def splitDashAux : List Char → List Char → List String
  | [], acc => [String.mk acc.reverse]
  | c :: rest, acc =>
    if c = '-' then String.mk acc.reverse :: splitDashAux rest []
    else splitDashAux rest (c :: acc)

/-- `key.split("-")`. -/
def splitDash (key : String) : List String := splitDashAux key.toList []

/-- `key_to_mask` of generate-using-8bit.py: split the tile key on `-`
and OR the bits of the pairs; raises `ValueError` on an unknown pair. -/
def key_to_mask (key : String) : Except String Nat :=
  maskOfPairs (splitDash key) 0

/-- `curve_paths_base`, in declared (= Python dict insertion) order. -/
def curve_paths_base : List (String × Paths) :=
  [("U1U2-R1R2", ⟨"M 10 0 L 10 10 C 10 15.5 14.5 20 20 20 L 40 20",
                  "M 20 0 L 20 5 C 20 7.8 22.2 10 25 10 L 40 10"⟩),
   ("U1U2-R2R3", ⟨"M 10 0 L 10 20 C 10 25.5 14.5 30 20 30 L 40 30",
                  "M 20 0 L 20 15 C 20 17.8 22.2 20 25 20 L 40 20"⟩),
   ("U2U3-R1R2", ⟨"M 20 0 L 20 10 C 20 15.5 24.5 20 30 20 L 40 20",
                  "M 30 0 L 30 5 C 30 7.8 32.2 10 35 10 L 40 10"⟩),
   ("U2U3-R2R3", ⟨"M 20 0 L 20 20 C 20 25.5 24.5 30 30 30 L 40 30",
                  "M 30 0 L 30 15 C 30 17.8 32.2 20 35 20 L 40 20"⟩)]

/-- `sharp_paths_base`, in declared order. -/
def sharp_paths_base : List (String × Paths) :=
  [("U1U2-R1R2", ⟨"M 10 0 L 10 20 L 40 20", "M 20 0 L 20 10 L 40 10"⟩),
   ("U1U2-R2R3", ⟨"M 10 0 L 10 30 L 40 30", "M 20 0 L 20 20 L 40 20"⟩),
   ("U2U3-R1R2", ⟨"M 20 0 L 20 20 L 40 20", "M 30 0 L 30 10 L 40 10"⟩),
   ("U2U3-R2R3", ⟨"M 20 0 L 20 30 L 40 30", "M 30 0 L 30 20 L 40 20"⟩)]

/-- `straight_paths`, in declared order. -/
def straight_paths : List (String × Paths) :=
  [("L2L3-R2R3", ⟨"M 0 20 L 40 20", "M 0 30 L 40 30"⟩),
   ("R2R3-L2L3", ⟨"M 40 20 L 0 20", "M 40 30 L 0 30"⟩),
   ("U2U3-D2D3", ⟨"M 20 0 L 20 40", "M 30 0 L 30 40"⟩),
   ("D2D3-U2U3", ⟨"M 20 40 L 20 0", "M 30 40 L 30 0"⟩)]

/-- `ROT_KEYS` of generate-using-8bit.py: base key to its 90/180/270
degree derived keys (positions 0, 1, 2). -/
def ROT_KEYS : String → Option (List String)
  | "U1U2-R1R2" => some ["R1R2-D1D2", "D1D2-L1L2", "L1L2-U1U2"]
  | "U1U2-R2R3" => some ["R1R2-D2D3", "D1D2-L2L3", "L1L2-U2U3"]
  | "U2U3-R1R2" => some ["R2R3-D1D2", "D2D3-L1L2", "L2L3-U1U2"]
  | "U2U3-R2R3" => some ["R2R3-D2D3", "D2D3-L2L3", "L2L3-U2U3"]
  | _ => none

/-- One SVG file written by generate-using-8bit.py, as determined by the
arguments of `write_svg` (file name, source key, mask, path data, and
the transform attribute of the road group). -/
structure Emitted where
  fname : String
  key : String
  mask : Nat
  angle : Nat
  outer : String
  inner : String
  transform : String
deriving DecidableEq

/-- One candidate variant of the doubly nested loop of `gen_rot_tiles`:
a base key with its paths, and one `(idx, angle)` from
`enumerate((0, 90, 180, 270))`. -/
structure Cand where
  base_key : String
  paths : Paths
  idx : Nat
  angle : Nat
deriving DecidableEq

/-- Line 141 of generate-using-8bit.py:
`key = base_key if angle == 0 else ROT_KEYS[base_key][idx - 1]`,
with Python's `KeyError` / `IndexError` as `Except.error`. -/
def candidate_key (base_key : String) (idx angle : Nat) : Except String String :=
  if angle = 0 then .ok base_key
  else
    match ROT_KEYS base_key with
    | none => .error ("KeyError " ++ base_key)
    | some ks =>
      match ks.get? (idx - 1) with
      | none => .error ("IndexError " ++ base_key)
      | some k => .ok k

/-- The record handed to `write_svg` for one emitted variant. -/
def mkEmitted (tile_type : String) (c : Cand) (key : String) (mask : Nat) : Emitted :=
  ⟨"road-tile-" ++ tile_type ++ "-" ++ hex2 mask ++ ".svg",
   key, mask, c.angle, c.paths.outer, c.paths.inner,
   if c.angle = 0 then ""
   else " transform=\"rotate(" ++ toString c.angle ++ " 20 20)\""⟩

/-- The body of `gen_rot_tiles` as a fold over the flattened candidate
list, threading the `used_masks` set (which persists across base keys
within one call): compute the key and mask, skip the candidate if the
mask was already used, emit it otherwise; any exception aborts. -/
def gen_loop (tile_type : String) : List Cand → List Nat → Except String (List Emitted)
  | [], _ => .ok []
  | c :: rest, used =>
    match candidate_key c.base_key c.idx c.angle with
    | .error e => .error e
    | .ok key =>
      match key_to_mask key with
      | .error e => .error e
      | .ok mask =>
        if mask ∈ used then gen_loop tile_type rest used
        else
          match gen_loop tile_type rest (mask :: used) with
          | .error e => .error e
          | .ok l => .ok (mkEmitted tile_type c key mask :: l)

/-- `enumerate((0, 90, 180, 270))`. -/
def ANGLES : List (Nat × Nat) := [(0, 0), (1, 90), (2, 180), (3, 270)]

/-- The candidates of `gen_rot_tiles` in iteration order: base keys in
declared order, each with the four `(idx, angle)` pairs. -/
def candidates (base_dict : List (String × Paths)) : List Cand :=
  base_dict.flatMap (fun kp => ANGLES.map (fun ia => ⟨kp.1, kp.2, ia.1, ia.2⟩))

/-- `gen_rot_tiles` of generate-using-8bit.py: emit the deduplicated
rotation variants of every base key, starting from an empty mask set. -/
def gen_rot_tiles (base_dict : List (String × Paths)) (tile_type : String) :
    Except String (List Emitted) :=
  gen_loop tile_type (candidates base_dict) []

/-- The straight-tile loop of `__main__` (lines 166-174): no rotation,
same mask dedup against a fresh `used_masks` set. -/
def straight_loop : List (String × Paths) → List Nat → Except String (List Emitted)
  | [], _ => .ok []
  | (key, paths) :: rest, used =>
    match key_to_mask key with
    | .error e => .error e
    | .ok mask =>
      if mask ∈ used then straight_loop rest used
      else
        match straight_loop rest (mask :: used) with
        | .error e => .error e
        | .ok l =>
          .ok (⟨"road-tile-straight-" ++ hex2 mask ++ ".svg",
                key, mask, 0, paths.outer, paths.inner, ""⟩ :: l)

/-- The straight-tile generation pass of `__main__`. -/
def straight_main : Except String (List Emitted) :=
  straight_loop straight_paths []

/-- Helper for `deriveVariants`: run `candidate_key` over a list of
`(idx, angle)` pairs, pairing each angle with its derived key. -/
def deriveVariantsAux (base_key : String) :
    List (Nat × Nat) → Except String (List (Nat × String))
  | [] => .ok []
  | ia :: rest =>
    match candidate_key base_key ia.1 ia.2 with
    | .error e => .error e
    | .ok k =>
      match deriveVariantsAux base_key rest with
      | .error e => .error e
      | .ok l => .ok ((ia.2, k) :: l)

/-- The key-selection logic of `gen_rot_tiles` collected in angle order
0, 90, 180, 270: the spec's `deriveVariants(baseKey)`. -/
def deriveVariants (base_key : String) : Except String (List (Nat × String)) :=
  deriveVariantsAux base_key ANGLES

end Gen8

namespace Marker

/-- `PORT_TO_BIT` of generate-using-8bit-start-goal.py: port name to bit. -/
def PORT_TO_BIT : String → Option Nat
  | "N0" => some 0
  | "N1" => some 1
  | "E0" => some 2
  | "E1" => some 3
  | "S1" => some 4
  | "S0" => some 5
  | "W1" => some 6
  | "W0" => some 7
  | _ => none

/-- `PORT_TO_MASK = {port: (1 << bit) for port, bit in PORT_TO_BIT.items()}`. -/
def PORT_TO_MASK (port : String) : Option Nat :=
  (PORT_TO_BIT port).map (fun bit => 1 <<< bit)

/-- The loop body of `calculate_mask`: OR in the mask of a recognized
port, leave the accumulator unchanged for an unrecognized one. -/
def maskStep (mask : Nat) (port : String) : Nat :=
  match PORT_TO_MASK port with
  | some m => mask ||| m
  | none => mask

/-- `calculate_mask` of generate-using-8bit-start-goal.py: fold the loop
body over the port list starting from 0.  Note it never raises: ports
missing from `PORT_TO_MASK` are skipped. -/
def calculate_mask (ports : List String) : Nat := ports.foldl maskStep 0

/-- `generate_marker_tile`, modelled by the name of the file it writes
(the function's return value). -/
def generate_marker_tile (tile_type : String) (ports : List String) : String :=
  let mask := calculate_mask ports
  if tile_type = "start" then "road-tile-marker-start-" ++ hex2 mask ++ ".svg"
  else "road-tile-marker-goal-" ++ hex2 mask ++ ".svg"

/-- One run of `generate_marker_tiles`: the validation warnings printed
and the files written, in order. -/
structure MarkerRun where
  warnings : List String
  files : List String
deriving DecidableEq

/-- `generate_marker_tiles`: a start (resp. goal) port not in
`PORT_TO_MASK` is replaced by the default `E0` (resp. `W0`) after a
warning; then the start and the goal marker tiles are generated. -/
def generate_marker_tiles (start_port goal_port : String) : MarkerRun :=
  let sOk := (PORT_TO_MASK start_port).isSome
  let gOk := (PORT_TO_MASK goal_port).isSome
  let sp := if sOk then start_port else "E0"
  let gp := if gOk then goal_port else "W0"
  ⟨(if sOk then [] else ["invalid start port " ++ start_port]) ++
     (if gOk then [] else ["invalid goal port " ++ goal_port]),
   [generate_marker_tile "start" [sp], generate_marker_tile "goal" [gp]]⟩

end Marker

namespace GenPy

/-- `curve_paths_base` of generate.py (lines 65-82): the same literal
table as the 8-bit script's. -/
def curve_paths_base : List (String × Paths) := Gen8.curve_paths_base

/-- `sharp_paths_base` of generate.py (lines 85-90): the same literal
table as the 8-bit script's. -/
def sharp_paths_base : List (String × Paths) := Gen8.sharp_paths_base

/-- `straight_paths` of generate.py (lines 94-99): the same literal
table as the 8-bit script's. -/
def straight_paths : List (String × Paths) := Gen8.straight_paths

/-- `rotated_keys_map` of generate.py (lines 110-115): the same literal
table as the 8-bit script's `ROT_KEYS`. -/
def rotated_keys_map : String → Option (List String) := Gen8.ROT_KEYS

/-- One SVG file written by generate.py: file name, tile key, tile type,
rotation angle, path data, and the road group's transform attribute. -/
structure GTile where
  fname : String
  key : String
  ttype : String
  angle : Nat
  outer : String
  inner : String
  transform : String
deriving DecidableEq

/-- `generate_rotated_tiles` of generate.py: for each base key and each
`(i, angle)` of `enumerate([0, 90, 180, 270])`, pick the tile key
(the base key at angle 0, else `rotated_keys_map[base_key][i-1]` when
present), skipping the variant with a warning when the mapping or the
index is absent; the base path data is reused for every angle. -/
def generate_rotated_tiles (base_paths : List (String × Paths)) (tile_type : String) :
    List GTile :=
  base_paths.flatMap (fun bp =>
    Gen8.ANGLES.filterMap (fun ia =>
      (if ia.2 = 0 then some bp.1
       else
         match rotated_keys_map bp.1 with
         | some ks => ks.get? (ia.1 - 1)
         | none => none).map
        (fun tile_key =>
          ⟨"road-tile-" ++ tile_type ++ "-" ++ tile_key ++ ".svg",
           tile_key, tile_type, ia.2, bp.2.outer, bp.2.inner,
           if ia.2 = 0 then ""
           else " transform=\"rotate(" ++ toString ia.2 ++ " 20 20)\""⟩)))

/-- The straight-tile loop of generate.py (lines 169-185): every key is
emitted, with no rotation and no deduplication. -/
def straight_tiles : List GTile :=
  straight_paths.map (fun kp =>
    ⟨"road-tile-straight-" ++ kp.1 ++ ".svg",
     kp.1, "straight", 0, kp.2.outer, kp.2.inner, ""⟩)

/-- All files written by one run of generate.py, in order. -/
def all_files : List GTile :=
  generate_rotated_tiles curve_paths_base "curve" ++
    generate_rotated_tiles sharp_paths_base "sharp" ++ straight_tiles

end GenPy

/-! ### Derived concrete results -/

/-- The file list of the curve generation pass. -/
def curve_result : List Gen8.Emitted :=
  ((Gen8.gen_rot_tiles Gen8.curve_paths_base "curve").toOption).getD []

/-- The file list of the straight generation pass of the 8-bit script. -/
def straight_result : List Gen8.Emitted :=
  ((Gen8.straight_main).toOption).getD []

/-- The first file of the curve pass: the angle-0 variant of the first
base key. -/
def curve_e0 : Gen8.Emitted :=
  ⟨"road-tile-curve-05.svg", "U1U2-R1R2", 5, 0,
   "M 10 0 L 10 10 C 10 15.5 14.5 20 20 20 L 40 20",
   "M 20 0 L 20 5 C 20 7.8 22.2 10 25 10 L 40 10", ""⟩

/-- Path data for a synthetic base entry used to exercise the missing
rotation-mapping branch. -/
def demo_paths : Paths := ⟨"M 10 0 L 40 20", "M 20 0 L 40 10"⟩

/-! ### Invariants of the deduplicating generation loop -/

namespace Gen8

/-- What `gen_loop` guarantees about a successful pass: the emitted
masks are pairwise distinct and fresh with respect to the initial
`used_masks` set, and every emitted record stems from one candidate of
the list, with its key chosen by `candidate_key` and its mask by
`key_to_mask`. -/
theorem gen_loop_ok_spec (tile_type : String) :
    ∀ (cands : List Cand) (used : List Nat) (l : List Emitted),
      gen_loop tile_type cands used = .ok l →
      ((l.map Emitted.mask).Nodup ∧ ∀ m ∈ l.map Emitted.mask, m ∉ used) ∧
      ∀ e ∈ l, ∃ c key mask, c ∈ cands ∧
        candidate_key c.base_key c.idx c.angle = .ok key ∧
        key_to_mask key = .ok mask ∧ e = mkEmitted tile_type c key mask := by
  intro cands
  induction cands with
  | nil =>
    intro used l h
    rw [gen_loop] at h
    cases h
    simp
  | cons c rest ih =>
    intro used l h
    rw [gen_loop] at h
    split at h
    · cases h
    · rename_i key hck
      split at h
      · cases h
      · rename_i mask hkm
        split at h
        · rename_i hmem
          obtain ⟨⟨hnd, hfresh⟩, hsrc⟩ := ih used l h
          refine ⟨⟨hnd, hfresh⟩, fun e he => ?_⟩
          obtain ⟨c', key', mask', hc', hrest⟩ := hsrc e he
          exact ⟨c', key', mask', List.mem_cons_of_mem _ hc', hrest⟩
        · rename_i hmem
          split at h
          · cases h
          · rename_i l' hrec
            injection h with h
            subst h
            obtain ⟨⟨hnd, hfresh⟩, hsrc⟩ := ih (mask :: used) l' hrec
            refine ⟨⟨?_, ?_⟩, ?_⟩
            · show (mask :: l'.map Emitted.mask).Nodup
              refine List.nodup_cons.mpr ⟨fun hmm => ?_, hnd⟩
              exact (hfresh mask hmm) (List.mem_cons_self mask used)
            · intro m hm
              rcases List.mem_cons.mp hm with rfl | hm'
              · exact hmem
              · intro hmu
                exact (hfresh m hm') (List.mem_cons_of_mem _ hmu)
            · intro e he
              rcases List.mem_cons.mp he with rfl | he'
              · exact ⟨c, key, mask, List.mem_cons_self c rest, hck, hkm, rfl⟩
              · obtain ⟨c', key', mask', hc', hrest⟩ := hsrc e he'
                exact ⟨c', key', mask', List.mem_cons_of_mem _ hc', hrest⟩

/-- The straight-tile loop of `__main__` keeps its emitted masks
pairwise distinct and fresh with respect to the initial set. -/
theorem straight_loop_ok_masks :
    ∀ (sp : List (String × Paths)) (used : List Nat) (l : List Emitted),
      straight_loop sp used = .ok l →
      (l.map Emitted.mask).Nodup ∧ ∀ m ∈ l.map Emitted.mask, m ∉ used := by
  intro sp
  induction sp with
  | nil =>
    intro used l h
    rw [straight_loop] at h
    cases h
    simp
  | cons kp rest ih =>
    obtain ⟨key, paths⟩ := kp
    intro used l h
    rw [straight_loop] at h
    split at h
    · cases h
    · rename_i mask hkm
      split at h
      · rename_i hmem
        exact ih used l h
      · rename_i hmem
        split at h
        · cases h
        · rename_i l' hrec
          injection h with h
          subst h
          obtain ⟨hnd, hfresh⟩ := ih (mask :: used) l' hrec
          refine ⟨?_, ?_⟩
          · show (mask :: l'.map Emitted.mask).Nodup
            refine List.nodup_cons.mpr ⟨fun hmm => ?_, hnd⟩
            exact (hfresh mask hmm) (List.mem_cons_self mask used)
          · intro m hm
            rcases List.mem_cons.mp hm with rfl | hm'
            · exact hmem
            · intro hmu
              exact (hfresh m hm') (List.mem_cons_of_mem _ hmu)

/-- Membership in the flattened candidate list of `gen_rot_tiles`. -/
theorem mem_candidates {bd : List (String × Paths)} {c : Cand}
    (hc : c ∈ candidates bd) :
    ∃ kp ∈ bd, ∃ ia ∈ ANGLES, c = ⟨kp.1, kp.2, ia.1, ia.2⟩ := by
  simp only [candidates, List.mem_flatMap, List.mem_map] at hc
  obtain ⟨kp, hkp, ia, hia, rfl⟩ := hc
  exact ⟨kp, hkp, ia, hia, rfl⟩

end Gen8

/-! ### Algebra of `calculate_mask` -/

namespace Marker

/-- The mask accumulated so far factors out of the fold. -/
theorem foldl_maskStep_or :
    ∀ (l : List String) (b : Nat),
      l.foldl maskStep b = b ||| l.foldl maskStep 0 := by
  intro l
  induction l with
  | nil => intro b; simp [List.foldl, Nat.or_zero]
  | cons p l ih =>
    intro b
    simp only [List.foldl_cons]
    rw [ih (maskStep b p), ih (maskStep 0 p)]
    have hms : maskStep b p = b ||| maskStep 0 p := by
      cases hpm : PORT_TO_MASK p <;>
        simp [maskStep, hpm, Nat.or_zero, Nat.zero_or]
    rw [hms, Nat.lor_assoc]

/-- Two consecutive fold steps commute. -/
theorem maskStep_comm (b : Nat) (x y : String) :
    maskStep (maskStep b x) y = maskStep (maskStep b y) x := by
  cases hx : PORT_TO_MASK x <;> cases hy : PORT_TO_MASK y <;>
    simp only [maskStep, hx, hy]
  rename_i mx my
  calc b ||| mx ||| my = b ||| (mx ||| my) := Nat.lor_assoc b mx my
    _ = b ||| (my ||| mx) := by rw [Nat.lor_comm mx my]
    _ = b ||| my ||| mx := (Nat.lor_assoc b my mx).symm

/-- The fold of `calculate_mask` is invariant under permutation. -/
theorem foldl_maskStep_perm :
    ∀ ⦃l1 l2 : List String⦄, l1.Perm l2 →
      ∀ b : Nat, l1.foldl maskStep b = l2.foldl maskStep b := by
  intro l1 l2 h
  induction h with
  | nil => intro b; rfl
  | cons x _ ih => intro b; simp only [List.foldl_cons]; exact ih _
  | swap x y l => intro b; simp only [List.foldl_cons]; rw [maskStep_comm]
  | trans _ _ ih1 ih2 => intro b; rw [ih1 b, ih2 b]

/-- Ports missing from `PORT_TO_BIT` contribute nothing: the mask only
depends on the recognized ports of the list. -/
theorem calculate_mask_filter :
    ∀ l : List String,
      calculate_mask l =
        calculate_mask (l.filter (fun p => (PORT_TO_BIT p).isSome)) := by
  intro l
  induction l with
  | nil => rfl
  | cons p l ih =>
    by_cases hp : (PORT_TO_BIT p).isSome
    · have hf : (p :: l).filter (fun q => (PORT_TO_BIT q).isSome) =
          p :: l.filter (fun q => (PORT_TO_BIT q).isSome) := by
        simp [List.filter_cons, hp]
      rw [hf]
      simp only [calculate_mask, List.foldl_cons]
      rw [foldl_maskStep_or l (maskStep 0 p),
        foldl_maskStep_or (l.filter (fun q => (PORT_TO_BIT q).isSome)) (maskStep 0 p)]
      have ih' := ih
      simp only [calculate_mask] at ih'
      rw [ih']
    · have hf : (p :: l).filter (fun q => (PORT_TO_BIT q).isSome) =
          l.filter (fun q => (PORT_TO_BIT q).isSome) := by
        simp [List.filter_cons, hp]
      rw [hf]
      have hnone : PORT_TO_MASK p = none := by
        simp [PORT_TO_MASK, Option.not_isSome_iff_eq_none.mp hp]
      simp only [calculate_mask, List.foldl_cons]
      have hms : maskStep 0 p = 0 := by simp [maskStep, hnone]
      rw [hms]
      simpa [calculate_mask] using ih

end Marker

/-! ### Geometry-reuse predicates -/

/-- An emitted 8-bit-script variant reuses the hand-authored path data
of one base entry of `bd` unchanged, with no transform at angle 0 and a
`rotate(angle 20 20)` transform at 90/180/270; at angle 0 its key is the
base key itself. -/
def pathsReused (bd : List (String × Paths)) (e : Gen8.Emitted) : Prop :=
  ∃ bk p, (bk, p) ∈ bd ∧ e.outer = p.outer ∧ e.inner = p.inner ∧
    ((e.angle = 0 ∧ e.transform = "" ∧ e.key = bk) ∨
     (e.angle ∈ ([90, 180, 270] : List Nat) ∧
      e.transform = " transform=\"rotate(" ++ toString e.angle ++ " 20 20)\""))

/-- The analogue of `pathsReused` for generate.py's emitted tiles. -/
def gpathsReused (bd : List (String × Paths)) (g : GenPy.GTile) : Prop :=
  ∃ bk p, (bk, p) ∈ bd ∧ g.outer = p.outer ∧ g.inner = p.inner ∧
    ((g.angle = 0 ∧ g.transform = "" ∧ g.key = bk) ∨
     (g.angle ∈ ([90, 180, 270] : List Nat) ∧
      g.transform = " transform=\"rotate(" ++ toString g.angle ++ " 20 20)\""))

/-! ### Claims -/

/-- C1: within one shape family's generation pass (one call to
`gen_rot_tiles`, or the straight-tile loop), every mask already in the
visited set is skipped, so the emitted masks are pairwise distinct; in
particular the curve family (4 base keys x 4 rotations) emits exactly
16 files with 16 distinct masks. -/
theorem C1_family_dedup :
    (∀ (base_dict : List (String × Paths)) (tile_type : String)
        (l : List Gen8.Emitted),
        Gen8.gen_rot_tiles base_dict tile_type = .ok l →
        (l.map Gen8.Emitted.mask).Nodup) ∧
    (∀ (sp : List (String × Paths)) (l : List Gen8.Emitted),
        Gen8.straight_loop sp [] = .ok l →
        (l.map Gen8.Emitted.mask).Nodup) ∧
    Gen8.gen_rot_tiles Gen8.curve_paths_base "curve" = .ok curve_result ∧
    curve_result.length = 16 ∧
    (curve_result.map Gen8.Emitted.mask).Nodup := by
  refine ⟨?_, ?_, by rfl, by decide, by decide⟩
  · intro bd tt l h
    exact ((Gen8.gen_loop_ok_spec tt (Gen8.candidates bd) [] l h).1).1
  · intro sp l h
    exact (Gen8.straight_loop_ok_masks sp [] l h).1

/-- Witness for C1: the dedup invariant applied to the concrete curve
and straight passes. -/
theorem C1_witness :
    (curve_result.map Gen8.Emitted.mask).Nodup ∧
    (straight_result.map Gen8.Emitted.mask).Nodup :=
  ⟨C1_family_dedup.1 Gen8.curve_paths_base "curve" curve_result (by rfl),
   C1_family_dedup.2.1 Gen8.straight_paths straight_result (by rfl)⟩

/-- C2: the marker generator run with its defaults `E0`/`W0` produces
exactly the two files `road-tile-marker-start-04.svg` and
`road-tile-marker-goal-80.svg`, because E0 is bit 2 (mask 0x04) and W0
is bit 7 (mask 0x80). -/
theorem C2_marker_defaults :
    Marker.generate_marker_tiles "E0" "W0" =
      ⟨[], ["road-tile-marker-start-04.svg", "road-tile-marker-goal-80.svg"]⟩ ∧
    Marker.PORT_TO_BIT "E0" = some 2 ∧ Marker.calculate_mask ["E0"] = 0x04 ∧
    Marker.PORT_TO_BIT "W0" = some 7 ∧ Marker.calculate_mask ["W0"] = 0x80 ∧
    (Marker.generate_marker_tiles "E0" "W0").files.length = 2 :=
  ⟨rfl, rfl, rfl, rfl, rfl, rfl⟩

/-- C3 counterexample: `calculate_mask` does not fail on a port list
containing an unrecognized name; it still returns a mask (here 0x04 for
`["Z9", "E0"]`, and 0 for `["Z9"]` alone). -/
theorem C3_counterexample :
    Marker.PORT_TO_BIT "Z9" = none ∧
    Marker.calculate_mask ["Z9", "E0"] = 4 ∧
    Marker.calculate_mask ["Z9"] = 0 :=
  ⟨rfl, rfl, rfl⟩

/-- C3 amended: `calculate_mask` never fails; it silently ignores every
port name not among the 8 recognized ones and returns the OR over the
recognized ports of the list. -/
theorem C3_unknown_ports_ignored :
    (∀ ports : List String,
      Marker.calculate_mask ports =
        Marker.calculate_mask
          (ports.filter (fun p => (Marker.PORT_TO_BIT p).isSome))) ∧
    Marker.calculate_mask ["Z9", "E0"] = Marker.calculate_mask ["E0"] :=
  ⟨Marker.calculate_mask_filter, rfl⟩

/-- C5: the straight family of the mask-named generator emits exactly 2
files from its 4 declared keys: the 2nd and 4th (direction-reversed)
keys fold to the masks of the 1st and 3rd and are skipped. -/
theorem C5_straight_two_files :
    Gen8.straight_main = .ok straight_result ∧
    straight_result.length = 2 ∧
    straight_result.map Gen8.Emitted.key = ["L2L3-R2R3", "U2U3-D2D3"] ∧
    straight_result.map Gen8.Emitted.mask = [0x48, 0x12] ∧
    straight_result.map Gen8.Emitted.fname =
      ["road-tile-straight-48.svg", "road-tile-straight-12.svg"] ∧
    Gen8.key_to_mask "R2R3-L2L3" = .ok 0x48 ∧
    Gen8.key_to_mask "D2D3-U2U3" = .ok 0x12 :=
  ⟨rfl, by decide, by decide, by decide, by decide, rfl, rfl⟩

/-- C9: mask computation over port lists: empty list is 0, a single
recognized port is exactly its shifted bit, the result is invariant
under permutation, and duplicated ports are idempotent. -/
theorem C9_mask_algebra :
    Marker.calculate_mask [] = 0 ∧
    (∀ (p : String) (b : Nat), Marker.PORT_TO_BIT p = some b →
      Marker.calculate_mask [p] = 1 <<< b) ∧
    (∀ l1 l2 : List String, l1.Perm l2 →
      Marker.calculate_mask l1 = Marker.calculate_mask l2) ∧
    (∀ (p : String) (l : List String),
      Marker.calculate_mask (p :: p :: l) = Marker.calculate_mask (p :: l)) := by
  refine ⟨rfl, ?_, ?_, ?_⟩
  · intro p b h
    simp [Marker.calculate_mask, Marker.maskStep, Marker.PORT_TO_MASK, h,
      Nat.zero_or]
  · intro l1 l2 h
    exact Marker.foldl_maskStep_perm h 0
  · intro p l
    simp only [Marker.calculate_mask, List.foldl_cons]
    have hstep : Marker.maskStep (Marker.maskStep 0 p) p = Marker.maskStep 0 p := by
      cases hpm : Marker.PORT_TO_MASK p <;>
        simp [Marker.maskStep, hpm, Nat.lor_assoc, Nat.or_self]
    rw [hstep]

/-- Witness for C9 at concrete ports. -/
theorem C9_witness :
    Marker.calculate_mask [] = 0 ∧
    Marker.calculate_mask ["E0"] = 1 <<< 2 ∧
    Marker.calculate_mask ["E0", "W0"] = Marker.calculate_mask ["W0", "E0"] ∧
    Marker.calculate_mask ["E0", "E0"] = Marker.calculate_mask ["E0"] :=
  ⟨C9_mask_algebra.1, C9_mask_algebra.2.1 "E0" 2 rfl,
   C9_mask_algebra.2.2.1 ["E0", "W0"] ["W0", "E0"] (List.Perm.swap "W0" "E0" []),
   C9_mask_algebra.2.2.2 "E0" []⟩

/-- C10: generate.py performs no mask deduplication: it emits all 36
candidate variants (16 curve, 16 sharp, all 4 straight keys including
the direction-reversed ones), each with a distinct filename that embeds
the raw tile key. -/
theorem C10_genpy_no_dedup :
    GenPy.all_files.length = 36 ∧
    (GenPy.all_files.map GenPy.GTile.fname).Nodup ∧
    (GenPy.generate_rotated_tiles GenPy.curve_paths_base "curve").length = 16 ∧
    (GenPy.generate_rotated_tiles GenPy.sharp_paths_base "sharp").length = 16 ∧
    GenPy.straight_tiles.length = 4 ∧
    GenPy.straight_tiles.map GenPy.GTile.key =
      ["L2L3-R2R3", "R2R3-L2L3", "U2U3-D2D3", "D2D3-U2U3"] ∧
    (GenPy.all_files.all
      (fun g => g.fname = "road-tile-" ++ g.ttype ++ "-" ++ g.key ++ ".svg")) =
      true :=
  ⟨by decide, by decide, by decide, by decide, by decide, by decide, by decide⟩

/-- C4 counterexample: in generate.py, a base key whose rotated keys
are absent from the rotation table does NOT make the run fail: the
90/180/270 variants are silently skipped (after a warning) and only the
angle-0 variant is emitted. -/
theorem C4_counterexample :
    GenPy.rotated_keys_map "U1U2-L1L2" = none ∧
    GenPy.generate_rotated_tiles [("U1U2-L1L2", demo_paths)] "curve" =
      [⟨"road-tile-curve-U1U2-L1L2.svg", "U1U2-L1L2", "curve", 0,
        demo_paths.outer, demo_paths.inner, ""⟩] :=
  ⟨rfl, by decide⟩

/-- C4 amended: the two generators differ. In the mask-named generator
(`gen_rot_tiles`), a base key absent from `ROT_KEYS` makes the pass
fail (an uncaught `KeyError`); in the TileKey-named generator
(generate.py), the missing variants are skipped with a warning and only
the angle-0 variant is emitted — the run never fails. -/
theorem C4_missing_mapping :
    (∀ (bk : String) (p : Paths) (tt : String),
      Gen8.ROT_KEYS bk = none →
      (Gen8.gen_rot_tiles [(bk, p)] tt).isOk = false) ∧
    (∀ (bk : String) (p : Paths) (tt : String),
      GenPy.rotated_keys_map bk = none →
      (GenPy.generate_rotated_tiles [(bk, p)] tt).map GenPy.GTile.angle =
        [0]) := by
  constructor
  · intro bk p tt h
    cases hkm : Gen8.key_to_mask bk with
    | error e =>
      simp [Gen8.gen_rot_tiles, Gen8.candidates, Gen8.ANGLES, Gen8.gen_loop,
        Gen8.candidate_key, hkm, h, Except.isOk, Except.toBool]
    | ok mask =>
      simp [Gen8.gen_rot_tiles, Gen8.candidates, Gen8.ANGLES, Gen8.gen_loop,
        Gen8.candidate_key, hkm, h, Except.isOk, Except.toBool]
  · intro bk p tt h
    simp [GenPy.generate_rotated_tiles, Gen8.ANGLES, h]

/-- Witness for C4 at a concrete table-absent base key. -/
theorem C4_witness :
    (Gen8.gen_rot_tiles [("U1U2-L1L2", demo_paths)] "curve").isOk = false ∧
    (GenPy.generate_rotated_tiles [("U1U2-L1L2", demo_paths)] "curve").map
      GenPy.GTile.angle = [0] :=
  ⟨C4_missing_mapping.1 "U1U2-L1L2" demo_paths "curve" rfl,
   C4_missing_mapping.2 "U1U2-L1L2" demo_paths "curve" rfl⟩

/-- C6: variants are derived in the fixed angle order 0, 90, 180, 270;
the angle-0 key is always the base key unchanged, and the 90/180/270
keys are taken positionally (indices 0, 1, 2) from the base key's
`ROT_KEYS` entry. -/
theorem C6_variant_order :
    (∀ base_key : String, Gen8.candidate_key base_key 0 0 = .ok base_key) ∧
    (∀ (base_key k1 k2 k3 : String) (rest : List String),
      Gen8.ROT_KEYS base_key = some (k1 :: k2 :: k3 :: rest) →
      Gen8.deriveVariants base_key =
        .ok [(0, base_key), (90, k1), (180, k2), (270, k3)]) := by
  constructor
  · intro bk; rfl
  · intro bk k1 k2 k3 rest h
    simp [Gen8.deriveVariants, Gen8.deriveVariantsAux, Gen8.ANGLES,
      Gen8.candidate_key, h]

/-- Witness for C6 at the first curve base key. -/
theorem C6_witness :
    Gen8.candidate_key "U1U2-L1L2" 0 0 = .ok "U1U2-L1L2" ∧
    Gen8.deriveVariants "U1U2-R1R2" =
      .ok [(0, "U1U2-R1R2"), (90, "R1R2-D1D2"), (180, "D1D2-L1L2"),
        (270, "L1L2-U1U2")] :=
  ⟨C6_variant_order.1 "U1U2-L1L2",
   C6_variant_order.2 "U1U2-R1R2" "R1R2-D1D2" "D1D2-L1L2" "L1L2-U1U2" [] rfl⟩

/-- C7: an unrecognized start (resp. goal) port is replaced by the
default `E0` (resp. `W0`) after a warning, the default-named file is
still produced, and the run never fails (it always writes two files). -/
theorem C7_invalid_port_fallback :
    ∀ sp gp : String,
      (Marker.PORT_TO_BIT sp = none →
        (Marker.generate_marker_tiles sp gp).files.head? =
          some "road-tile-marker-start-04.svg" ∧
        (Marker.generate_marker_tiles sp gp).warnings ≠ []) ∧
      (Marker.PORT_TO_BIT gp = none →
        (Marker.generate_marker_tiles sp gp).files.get? 1 =
          some "road-tile-marker-goal-80.svg") ∧
      (Marker.generate_marker_tiles sp gp).files.length = 2 := by
  intro sp gp
  refine ⟨fun hs => ?_, fun hg => ?_, rfl⟩
  · have hsm : Marker.PORT_TO_MASK sp = none := by
      simp [Marker.PORT_TO_MASK, hs]
    constructor
    · simp [Marker.generate_marker_tiles, hsm, Marker.generate_marker_tile]
      all_goals decide
    · simp [Marker.generate_marker_tiles, hsm]
  · have hgm : Marker.PORT_TO_MASK gp = none := by
      simp [Marker.PORT_TO_MASK, hg]
    simp [Marker.generate_marker_tiles, hgm, Marker.generate_marker_tile]
    all_goals decide

/-- Witness for C7 at the invalid ports `Z9` and `Q9`. -/
theorem C7_witness :
    ((Marker.generate_marker_tiles "Z9" "Q9").files.head? =
      some "road-tile-marker-start-04.svg" ∧
     (Marker.generate_marker_tiles "Z9" "Q9").warnings ≠ []) ∧
    (Marker.generate_marker_tiles "Z9" "Q9").files.get? 1 =
      some "road-tile-marker-goal-80.svg" ∧
    (Marker.generate_marker_tiles "Z9" "Q9").files.length = 2 := by
  have h := C7_invalid_port_fallback "Z9" "Q9"
  exact ⟨h.1 rfl, h.2.1 rfl, h.2.2⟩

/-- C8: every emitted rotation variant of both generators reuses the
base key's hand-authored outer and inner path data unchanged; the
angle-0 variant carries no transform, and the 90/180/270 variants carry
a `rotate(angle 20 20)` transform about the tile center. -/
theorem C8_geometry_reuse :
    (∀ (bd : List (String × Paths)) (tt : String) (l : List Gen8.Emitted),
      Gen8.gen_rot_tiles bd tt = .ok l → ∀ e ∈ l, pathsReused bd e) ∧
    (∀ (bd : List (String × Paths)) (tt : String),
      ∀ g ∈ GenPy.generate_rotated_tiles bd tt, gpathsReused bd g) := by
  have h90 : (90 : Nat) ∈ ([90, 180, 270] : List Nat) :=
    List.mem_cons_self 90 [180, 270]
  have h180 : (180 : Nat) ∈ ([90, 180, 270] : List Nat) :=
    List.mem_cons_of_mem 90 (List.mem_cons_self 180 [270])
  have h270 : (270 : Nat) ∈ ([90, 180, 270] : List Nat) :=
    List.mem_cons_of_mem 90 (List.mem_cons_of_mem 180 (List.mem_cons_self 270 []))
  constructor
  · intro bd tt l h e he
    obtain ⟨c, key, mask, hc, hck, hkm, rfl⟩ :=
      ((Gen8.gen_loop_ok_spec tt (Gen8.candidates bd) [] l h).2) e he
    obtain ⟨kp, hkp, ia, hia, rfl⟩ := Gen8.mem_candidates hc
    refine ⟨kp.1, kp.2, hkp, rfl, rfl, ?_⟩
    simp only [Gen8.ANGLES, List.mem_cons, List.not_mem_nil, or_false] at hia
    rcases hia with rfl | rfl | rfl | rfl
    · refine Or.inl ⟨rfl, rfl, ?_⟩
      have hck' : Except.ok (ε := String) kp.1 = .ok key := hck
      injection hck' with hck'
      exact hck'.symm
    · exact Or.inr ⟨h90, rfl⟩
    · exact Or.inr ⟨h180, rfl⟩
    · exact Or.inr ⟨h270, rfl⟩
  · intro bd tt g hg
    simp only [GenPy.generate_rotated_tiles, List.mem_flatMap,
      List.mem_filterMap] at hg
    obtain ⟨bp, hbp, ia, hia, hsome⟩ := hg
    obtain ⟨tk, htk, rfl⟩ := Option.map_eq_some'.mp hsome
    refine ⟨bp.1, bp.2, hbp, rfl, rfl, ?_⟩
    simp only [Gen8.ANGLES, List.mem_cons, List.not_mem_nil, or_false] at hia
    rcases hia with rfl | rfl | rfl | rfl
    · refine Or.inl ⟨rfl, rfl, ?_⟩
      have htk' : some bp.1 = some tk := htk
      injection htk' with htk'
      exact htk'.symm
    · exact Or.inr ⟨h90, rfl⟩
    · exact Or.inr ⟨h180, rfl⟩
    · exact Or.inr ⟨h270, rfl⟩

/-- The angle-0 curve tile of generate.py's first base key. -/
def gtile_e0 : GenPy.GTile :=
  ⟨"road-tile-curve-U1U2-R1R2.svg", "U1U2-R1R2", "curve", 0,
   "M 10 0 L 10 10 C 10 15.5 14.5 20 20 20 L 40 20",
   "M 20 0 L 20 5 C 20 7.8 22.2 10 25 10 L 40 10", ""⟩

/-- Witness for C8 at the first emitted curve tile of each generator. -/
theorem C8_witness :
    pathsReused Gen8.curve_paths_base curve_e0 ∧
    gpathsReused GenPy.curve_paths_base gtile_e0 :=
  ⟨C8_geometry_reuse.1 Gen8.curve_paths_base "curve" curve_result (by rfl)
      curve_e0 (by decide),
   C8_geometry_reuse.2 GenPy.curve_paths_base "curve" gtile_e0 (by decide)⟩

end RoadTile
